import Mathlib

/-!
Verification of the Forecast-Ready forecast pipeline
(src/motia-app/src/forecast/generate-forecast.step.ts, deterministic revision,
and src/motia-app/src/forecast/persist-forecast-result.step.ts).

Modelling conventions:
* JavaScript numbers are modelled as exact rationals (ℚ).  Every arithmetic
  operation the engine performs (+, -, *, /, Math.pow(_, 2), Math.round) is
  exact on rationals; the one primitive with no rational representation,
  Math.sqrt, is abstracted as an explicit parameter of the engine
  (see sqrtFn below).  Division by zero follows the Lean convention x / 0 = 0,
  whereas JavaScript yields NaN; all theorems below are restricted to
  non-empty fact series, where no division by zero occurs.
* Calendar dates: the handler parses a date-only ISO string with new Date,
  adds d days with setDate(getDate() + d), and formats back with
  toISOString().split(.)[0].  For a UTC runtime this is exact Gregorian
  day-increment arithmetic, modelled by Date.nextDay iterated.
* The handler throws when the fact series is empty (it reads
  dailySales[length - 1].date of undefined); the embedding returns
  Option ForecastResult, none for the empty series.
-/

/-- Gregorian calendar date (year, month, day). -/
structure Date where
  year : Int
  month : Nat
  day : Nat
deriving DecidableEq

/-- Gregorian leap-year rule, as implemented by the JavaScript Date object. -/
def isLeapYear (y : Int) : Bool :=
  (y % 4 == 0 && y % 100 != 0) || y % 400 == 0

/-- Number of days of month m of year y in the Gregorian calendar. -/
def daysInMonth (y : Int) (m : Nat) : Nat :=
  if m = 2 then (if isLeapYear y then 29 else 28)
  else if m = 4 ∨ m = 6 ∨ m = 9 ∨ m = 11 then 30
  else 31

/-- The calendar day after dt (the rollover JavaScript setDate performs). -/
def Date.nextDay (dt : Date) : Date :=
  if dt.day < daysInMonth dt.year dt.month then ⟨dt.year, dt.month, dt.day + 1⟩
  else if dt.month < 12 then ⟨dt.year, dt.month + 1, 1⟩
  else ⟨dt.year + 1, 1, 1⟩

/-- futureDate.setDate(futureDate.getDate() + n) for n ≥ 0: n calendar days
after dt. -/
def Date.addDays (dt : Date) (n : Nat) : Date :=
  Date.nextDay^[n] dt

/-- Strict calendar order on dates (lexicographic on year, month, day). -/
def Date.before (a b : Date) : Prop :=
  a.year < b.year ∨ (a.year = b.year ∧ (a.month < b.month ∨ (a.month = b.month ∧ a.day < b.day)))

instance (a b : Date) : Decidable (a.before b) :=
  decidable_of_iff
    (a.year < b.year ∨
      (a.year = b.year ∧ (a.month < b.month ∨ (a.month = b.month ∧ a.day < b.day))))
    Iff.rfl

/-- One entry of historicalData.dailySales: a dated sales fact. -/
structure DataPoint where
  date : Date
  value : ℚ
deriving DecidableEq

/-- JavaScript Math.round: the integer nearest to x, ties toward +infinity.
Over exact numbers this is ⌊x + 1/2⌋. -/
def jsRound (x : ℚ) : Int :=
  ⌊x + 1 / 2⌋

/-- The 2-decimal rounding used throughout the handler:
Math.round(x * 100) / 100. -/
def round2 (x : ℚ) : ℚ :=
  (jsRound (x * 100) : ℚ) / 100

/-- Step 1 of the handler (generate-forecast.step.ts lines 68-73): the list of
trailing 7-point window averages, one per loop index 0 ≤ i ≤ length - 7.
For fewer than 7 points the loop body never runs and the list is empty. -/
def movingAverages (values : List ℚ) : List ℚ :=
  if values.length < 7 then []
  else (List.range (values.length - 6)).map (fun i => ((values.drop i).take 7).sum / 7)

/-- movingAverages[movingAverages.length - 1] || 0 (line 74): the last window
average, or 0 when the series is shorter than the window. -/
def finalMovingAverage (values : List ℚ) : ℚ :=
  ((movingAverages values).getLast?).getD 0

/-- Step 2 of the handler (lines 84-87):
trendSlope = (lastSales - firstSales) / daysCount, with the || 0 defaults on
first and last. -/
def trendSlope (values : List ℚ) : ℚ :=
  ((values.getLast?).getD 0 - (values.head?).getD 0) / values.length

/-- Population mean of the input values (line 110). -/
def mean (values : List ℚ) : ℚ :=
  values.sum / values.length

/-- Population variance of the input values (line 111):
reduce((sq, n) => sq + Math.pow(n - avg, 2), 0) / length. -/
def variancePop (values : List ℚ) : ℚ :=
  ((values.map (fun v => (v - mean values) ^ 2)).sum) / values.length

structure ConfidenceInterval where
  lower : ℚ
  upper : ℚ
deriving DecidableEq

structure ForecastPeriod where
  date : Date
  forecastValue : ℚ
  confidenceInterval : ConfidenceInterval
deriving DecidableEq

structure ForecastSummary where
  averageForecast : ℚ
  minForecast : ℚ
  maxForecast : ℚ
  trend : ℚ
  movingAverage : ℚ
  trendSlope : ℚ
deriving DecidableEq

structure ForecastResult where
  requestId : String
  productId : String
  forecastMethod : String
  confidenceLevel : ℚ
  forecastPeriods : List ForecastPeriod
  forecastSummary : ForecastSummary
  forecastRationale : String
deriving DecidableEq

/-- One iteration of the Array.from callback (lines 100-123), for 0-based
index i.  sqrtFn stands for Math.sqrt, the only numeric primitive with no
exact rational counterpart; the engine is parametrised by it and no theorem
below depends on more than its sign on the (nonnegative) variance. -/
def forecastPeriod (sqrtFn : ℚ → ℚ) (sales : List DataPoint) (confidenceLevel : ℚ)
    (lastDate : Date) (i : Nat) : ForecastPeriod :=
  let daysAhead := i + 1
  let futureDate := lastDate.addDays daysAhead
  let historicalValues := sales.map (fun s => s.value)
  let deterministicValue :=
    finalMovingAverage historicalValues + trendSlope historicalValues * daysAhead
  let stdDev := sqrtFn (variancePop historicalValues)
  let confidenceMargin := stdDev * confidenceLevel
  { date := futureDate
    forecastValue := round2 deterministicValue
    confidenceInterval :=
      { lower := round2 (deterministicValue - confidenceMargin)
        upper := round2 (deterministicValue + confidenceMargin) } }

/-- Line 100: forecastPeriods = Array.from of length 5 over the callback. -/
def forecastPeriodsOf (sqrtFn : ℚ → ℚ) (sales : List DataPoint)
    (confidenceLevel : ℚ) (lastDate : Date) : List ForecastPeriod :=
  (List.range 5).map (forecastPeriod sqrtFn sales confidenceLevel lastDate)

/-- Line 126: forecastValues = forecastPeriods.map(p => p.forecastValue). -/
def forecastValuesOf (sqrtFn : ℚ → ℚ) (sales : List DataPoint)
    (confidenceLevel : ℚ) (lastDate : Date) : List ℚ :=
  (forecastPeriodsOf sqrtFn sales confidenceLevel lastDate).map (fun p => p.forecastValue)

/-- Lines 134-142: the forecastSummary record.  Math.min / Math.max over the
(already rounded) forecastValues; min? and max? never return none here, the
list always has 5 entries. -/
def forecastSummaryOf (sqrtFn : ℚ → ℚ) (sales : List DataPoint)
    (confidenceLevel : ℚ) (lastDate : Date) : ForecastSummary :=
  let forecastValues := forecastValuesOf sqrtFn sales confidenceLevel lastDate
  { averageForecast := round2 (forecastValues.sum / forecastValues.length)
    minForecast := (forecastValues.min?).getD 0
    maxForecast := (forecastValues.max?).getD 0
    trend := round2 ((forecastValues.getLast?).getD 0 - (forecastValues.head?).getD 0)
    movingAverage := finalMovingAverage (sales.map (fun s => s.value))
    trendSlope := trendSlope (sales.map (fun s => s.value)) }

/-- The deterministic part of the GenerateForecast handler (lines 67-144):
moving average, trend slope, the 5 forecast periods and the summary.
Returns none for an empty series (where the JavaScript handler throws on
dailySales[length - 1].date); forecastRationale starts out empty
(line 143) and is filled in afterwards, see emittedForecastResult. -/
def generateForecast (sqrtFn : ℚ → ℚ) (requestId productId : String)
    (sales : List DataPoint) (confidenceLevel : ℚ) : Option ForecastResult :=
  match sales.getLast? with
  | none => none
  | some lastFact =>
    some
      { requestId := requestId
        productId := productId
        forecastMethod := "deterministic-moving-average-with-trend"
        confidenceLevel := confidenceLevel
        forecastPeriods := forecastPeriodsOf sqrtFn sales confidenceLevel lastFact.date
        forecastSummary := forecastSummaryOf sqrtFn sales confidenceLevel lastFact.date
        forecastRationale := "" }

/-- Left-pads a digit string with zeros up to width f. -/
def padZeros (s : String) (f : Nat) : String :=
  String.mk (List.replicate (f - s.length) '0') ++ s

/-- Number.prototype.toFixed(f): fixed-point notation with f fractional
digits; the scaled integer is the one nearest x * 10^f, ties toward
+infinity.  (JavaScript prints a sign for negative zero output such as
(-0.001).toFixed(2) = "-0.00"; the model drops that sign.  The claims only
ever need that these strings are non-empty.) -/
def toFixed (x : ℚ) (f : Nat) : String :=
  let scaled := jsRound (x * (10 : ℚ) ^ f)
  let sign := if scaled < 0 then "-" else ""
  let a := scaled.natAbs
  if f = 0 then sign ++ toString a
  else sign ++ toString (a / 10 ^ f) ++ "." ++ padZeros (toString (a % 10 ^ f)) f

/-- Input of GeminiClient.generateForecastExplanation and
generateFallbackExplanation (gemini-client, interface
GeminiExplanationRequest). -/
structure GeminiExplanationRequest where
  movingAverage : ℚ
  trendSlope : ℚ
  historicalDataPoints : Nat
  forecastHorizon : Nat
  productId : String

/-- Result of GeminiClient.generateForecastExplanation (interface
GeminiExplanationResponse). -/
structure GeminiExplanationResponse where
  explanation : String
  success : Bool
  error : Option String

/-- Behaviour of the external text-generation dependency during one handler
run: either generateForecastExplanation resolved to a response (it catches
all its own errors, returning success = false with an empty explanation on
any API failure, including an unconfigured key), or something inside the
try-block threw. -/
inductive GeminiOutcome where
  | responded (r : GeminiExplanationResponse)
  | threw (msg : String)

/-- GeminiClient.generateFallbackExplanation (gemini-client lines 449-454):
the deterministic fallback template. -/
def generateFallbackExplanation (req : GeminiExplanationRequest) : String :=
  let trendDirection :=
    if req.trendSlope > 0 then "positive"
    else if req.trendSlope < 0 then "negative"
    else "stable"
  "Forecast based on deterministic analysis: " ++ toFixed req.movingAverage 2 ++
    " moving average with " ++ trendDirection ++ " trend (slope: " ++
    toFixed req.trendSlope 4 ++ "). Generated from " ++
    toString req.historicalDataPoints ++
    " historical data points for " ++ toString req.forecastHorizon ++
    "-day horizon."

/-- Step 4 of the GenerateForecast handler (lines 160-224): the rationale
finally stored in forecastResult.forecastRationale.  The response branch
(lines 184-203) keeps the generated text only when success is set and the
explanation string is truthy (non-empty); every other response and any
thrown error falls back to generateFallbackExplanation. -/
def computeRationale (req : GeminiExplanationRequest) (outcome : GeminiOutcome) : String :=
  match outcome with
  | GeminiOutcome.responded r =>
    if r.success = true ∧ r.explanation ≠ "" then r.explanation
    else generateFallbackExplanation req
  | GeminiOutcome.threw _ => generateFallbackExplanation req

/-- The explanationRequest the handler builds (lines 166-172 and 216-222,
identical contents on both paths). -/
def mkExplanationRequest (sales : List DataPoint) (productId : String)
    (fr : ForecastResult) : GeminiExplanationRequest :=
  { movingAverage := fr.forecastSummary.movingAverage
    trendSlope := fr.forecastSummary.trendSlope
    historicalDataPoints := sales.length
    forecastHorizon := fr.forecastPeriods.length
    productId := productId }

/-- The ForecastResult the GenerateForecast handler emits (line 227): the
deterministic result of generateForecast with forecastRationale replaced by
the outcome of step 4. -/
def emittedForecastResult (sqrtFn : ℚ → ℚ) (requestId productId : String)
    (sales : List DataPoint) (confidenceLevel : ℚ) (outcome : GeminiOutcome) :
    Option ForecastResult :=
  (generateForecast sqrtFn requestId productId sales confidenceLevel).map
    (fun fr =>
      { fr with
        forecastRationale := computeRationale (mkExplanationRequest sales productId fr) outcome })

/-- One row of forecast.forecast_results as inserted by
persist-forecast-result.step.ts lines 71-82. -/
structure ForecastRow where
  store_id : String
  product_id : String
  forecast_date : Date
  forecast_quantity : Int
  model_version : String
  explanation : String
  forecast_rationale : String
deriving DecidableEq

/-- persist-forecast-result.step.ts lines 66-69: the rationale stored with
each row; the incoming forecastRationale when truthy (non-empty), otherwise
a template from method and summary.  (The code's || 'N-slash-A' defaults for
absent summary fields are dead here: the engine always populates them.) -/
def rowRationale (fr : ForecastResult) : String :=
  if fr.forecastRationale ≠ "" then fr.forecastRationale
  else "Forecast generated using " ++ fr.forecastMethod ++ " method. " ++
    "Moving average: " ++ toFixed fr.forecastSummary.movingAverage 2 ++ ", " ++
    "Trend slope: " ++ toFixed fr.forecastSummary.trendSlope 2 ++ "."

/-- The row the handler inserts for one forecast period (lines 71-82);
forecast_quantity is Math.round of the period's 2-decimal forecastValue. -/
def mkRow (fr : ForecastResult) (p : ForecastPeriod) : ForecastRow :=
  { store_id := "00000000-0000-0000-0000-000000000000"
    product_id := fr.productId
    forecast_date := p.date
    forecast_quantity := jsRound p.forecastValue
    model_version := "v0-dummy"
    explanation := rowRationale fr
    forecast_rationale := rowRationale fr }

/-- The PersistForecastResult handler (lines 64-143).  The Result Store's
behaviour is external, so it enters as writeOk, telling for each 0-based
period index whether its insert succeeds.  All inserts are issued
(Promise.all starts every promise), so every successful row is appended to
the store regardless of other periods failing; the handler resolves
successfully only when no insert failed, otherwise it rethrows the period's
error.  Result: (overall success, store contents after the run). -/
def persistForecastResult (writeOk : Nat → Bool) (store : List ForecastRow)
    (fr : ForecastResult) : Bool × List ForecastRow :=
  let outcomes : List (Except String ForecastRow) :=
    fr.forecastPeriods.enum.map (fun ip =>
      if writeOk ip.1 then Except.ok (mkRow fr ip.2)
      else Except.error ("Supabase insert failed for period " ++ toString (ip.1 + 1)))
  (outcomes.all (fun o => o.toOption.isSome),
   store ++ outcomes.filterMap (fun o => o.toOption))

/-! Concrete inputs used by witnesses and counterexamples. -/

/-- The fact series of the round-trip example in the spec:
values 100, 110, 105, 120, 115, 108, 112 on 2023-01-01 .. 2023-01-07. -/
def exSales : List DataPoint :=
  [⟨⟨2023, 1, 1⟩, 100⟩, ⟨⟨2023, 1, 2⟩, 110⟩, ⟨⟨2023, 1, 3⟩, 105⟩,
   ⟨⟨2023, 1, 4⟩, 120⟩, ⟨⟨2023, 1, 5⟩, 115⟩, ⟨⟨2023, 1, 6⟩, 108⟩,
   ⟨⟨2023, 1, 7⟩, 112⟩]

/-- A 3-point series (shorter than the 7-point window). -/
def shortSales : List DataPoint :=
  [⟨⟨2023, 1, 1⟩, 10⟩, ⟨⟨2023, 1, 2⟩, 20⟩, ⟨⟨2023, 1, 3⟩, 40⟩]

/-- Seven facts whose raw forecast values 2/1000 .. 6/1000 all round away
from themselves: movingAverage = trendSlope = 1/1000. -/
def cexMinSales : List DataPoint :=
  [⟨⟨2023, 1, 1⟩, 0⟩, ⟨⟨2023, 1, 2⟩, 0⟩, ⟨⟨2023, 1, 3⟩, 0⟩, ⟨⟨2023, 1, 4⟩, 0⟩,
   ⟨⟨2023, 1, 5⟩, 0⟩, ⟨⟨2023, 1, 6⟩, 0⟩, ⟨⟨2023, 1, 7⟩, 7 / 1000⟩]

/-- A 2-point series whose first raw forecast value is the exact negative
half -1/200 = -0.005: movingAverage falls back to 0 and
trendSlope = (-1/100 - 0) / 2. -/
def cexHalfSales : List DataPoint :=
  [⟨⟨2023, 1, 1⟩, 0⟩, ⟨⟨2023, 1, 2⟩, -1 / 100⟩]

/-- Two concrete forecast periods for the persistence witnesses. -/
def wPeriod0 : ForecastPeriod :=
  ⟨⟨2024, 1, 2⟩, 10, ⟨9, 11⟩⟩

def wPeriod1 : ForecastPeriod :=
  ⟨⟨2024, 1, 3⟩, 11171 / 100, ⟨9, 120⟩⟩

/-- A concrete ForecastResult with two periods for the persistence
witnesses. -/
def wForecastResult : ForecastResult :=
  { requestId := "req-1"
    productId := "prod-1"
    forecastMethod := "deterministic-moving-average-with-trend"
    confidenceLevel := 1
    forecastPeriods := [wPeriod0, wPeriod1]
    forecastSummary := ⟨10, 10, 11171 / 100, 1, 10, 1⟩
    forecastRationale := "rationale" }

/-- A trivial stand-in for Math.sqrt (any rational function may play this
role; the claims depend on sqrtFn only through its sign on the variance). -/
def sqrt0 : ℚ → ℚ := fun _ => 0

/-- A second stand-in for Math.sqrt returning a positive constant. -/
def sqrt2 : ℚ → ℚ := fun _ => 2

/-- The engine's output on exSales under sqrt0, spelled out. -/
def exForecastResult : ForecastResult :=
  { requestId := "r"
    productId := "p"
    forecastMethod := "deterministic-moving-average-with-trend"
    confidenceLevel := 1
    forecastPeriods := forecastPeriodsOf sqrt0 exSales 1 ⟨2023, 1, 7⟩
    forecastSummary := forecastSummaryOf sqrt0 exSales 1 ⟨2023, 1, 7⟩
    forecastRationale := "" }

/-- The engine's output on exSales under sqrt2, spelled out. -/
def exForecastResultS2 : ForecastResult :=
  { requestId := "r"
    productId := "p"
    forecastMethod := "deterministic-moving-average-with-trend"
    confidenceLevel := 1
    forecastPeriods := forecastPeriodsOf sqrt2 exSales 1 ⟨2023, 1, 7⟩
    forecastSummary := forecastSummaryOf sqrt2 exSales 1 ⟨2023, 1, 7⟩
    forecastRationale := "" }

/-- The engine's output on shortSales under sqrt0, spelled out. -/
def shortForecastResult : ForecastResult :=
  { requestId := "r"
    productId := "p"
    forecastMethod := "deterministic-moving-average-with-trend"
    confidenceLevel := 1
    forecastPeriods := forecastPeriodsOf sqrt0 shortSales 1 ⟨2023, 1, 3⟩
    forecastSummary := forecastSummaryOf sqrt0 shortSales 1 ⟨2023, 1, 3⟩
    forecastRationale := "" }

/-! Helper lemmas (shared; none of these is a claim theorem). -/

/-- A string with a non-empty left part stays non-empty under append. -/
theorem stringAppend_ne_empty (a b : String) (ha : a ≠ "") : a ++ b ≠ "" := by
  intro h
  apply ha
  cases a with
  | mk as =>
    cases b with
    | mk bs =>
      have hd : as ++ bs = [] := congrArg String.data h
      have : as = [] := (List.append_eq_nil.mp hd).1
      simp [this]

/-- The fallback template always starts with the same non-empty literal. -/
theorem generateFallbackExplanation_ne_empty (req : GeminiExplanationRequest) :
    generateFallbackExplanation req ≠ "" := by
  unfold generateFallbackExplanation
  repeat' apply stringAppend_ne_empty
  decide

/-- Math.round never undershoots by more than half. -/
theorem jsRound_bounds (x : ℚ) : x - 1 / 2 < (jsRound x : ℚ) ∧ (jsRound x : ℚ) ≤ x + 1 / 2 := by
  unfold jsRound
  constructor
  · have := Int.sub_one_lt_floor (x + 1 / 2)
    push_cast at this ⊢
    linarith
  · have := Int.floor_le (x + 1 / 2)
    linarith

/-- Math.round is monotone. -/
theorem jsRound_mono {x y : ℚ} (h : x ≤ y) : jsRound x ≤ jsRound y :=
  Int.floor_le_floor (by linarith)

/-- The 2-decimal rounding is monotone. -/
theorem round2_mono {x y : ℚ} (h : x ≤ y) : round2 x ≤ round2 y := by
  unfold round2
  have hle : jsRound (x * 100) ≤ jsRound (y * 100) := jsRound_mono (by linarith)
  have : (jsRound (x * 100) : ℚ) ≤ (jsRound (y * 100) : ℚ) := by exact_mod_cast hle
  linarith

/-- The population variance is nonnegative. -/
theorem variancePop_nonneg (values : List ℚ) : 0 ≤ variancePop values := by
  unfold variancePop
  apply div_nonneg _ (by positivity)
  apply List.sum_nonneg
  intro x hx
  obtain ⟨v, _, rfl⟩ := List.mem_map.mp hx
  positivity

/-- generateForecast on a series with a last element. -/
theorem generateForecast_eq_some (sqrtFn : ℚ → ℚ) (rid pid : String)
    (sales : List DataPoint) (c : ℚ) (lastFact : DataPoint)
    (hlast : sales.getLast? = some lastFact) :
    generateForecast sqrtFn rid pid sales c =
      some
        { requestId := rid
          productId := pid
          forecastMethod := "deterministic-moving-average-with-trend"
          confidenceLevel := c
          forecastPeriods := forecastPeriodsOf sqrtFn sales c lastFact.date
          forecastSummary := forecastSummaryOf sqrtFn sales c lastFact.date
          forecastRationale := "" } := by
  unfold generateForecast
  rw [hlast]

/-- Inversion: a produced ForecastResult comes from a series with a last
element and has the shape of generateForecast_eq_some. -/
theorem generateForecast_inv {sqrtFn : ℚ → ℚ} {rid pid : String}
    {sales : List DataPoint} {c : ℚ} {fr : ForecastResult}
    (hfr : generateForecast sqrtFn rid pid sales c = some fr) :
    ∃ lastFact, sales.getLast? = some lastFact ∧
      fr =
        { requestId := rid
          productId := pid
          forecastMethod := "deterministic-moving-average-with-trend"
          confidenceLevel := c
          forecastPeriods := forecastPeriodsOf sqrtFn sales c lastFact.date
          forecastSummary := forecastSummaryOf sqrtFn sales c lastFact.date
          forecastRationale := "" } := by
  cases h : sales.getLast? with
  | none =>
    unfold generateForecast at hfr
    rw [h] at hfr
    exact absurd hfr (by simp)
  | some lastFact =>
    refine ⟨lastFact, rfl, ?_⟩
    rw [generateForecast_eq_some sqrtFn rid pid sales c lastFact h] at hfr
    exact (Option.some.inj hfr).symm

instance : Std.Antisymm (fun x y : ℚ => x ≤ y) :=
  ⟨@fun _ _ h1 h2 => le_antisymm h1 h2⟩

/-- min? on rationals characterised by membership and lower-boundedness. -/
theorem rat_min?_eq_some_iff {xs : List ℚ} {a : ℚ} :
    xs.min? = some a ↔ a ∈ xs ∧ ∀ b ∈ xs, a ≤ b :=
  List.min?_eq_some_iff (fun a => le_refl a) (fun a b => min_choice a b)
    (fun _ _ _ => le_min_iff)

/-- max? on rationals characterised by membership and upper-boundedness. -/
theorem rat_max?_eq_some_iff {xs : List ℚ} {a : ℚ} :
    xs.max? = some a ↔ a ∈ xs ∧ ∀ b ∈ xs, b ≤ a :=
  List.max?_eq_some_iff (fun a => le_refl a) (fun a b => max_choice a b)
    (fun _ _ _ => max_le_iff)

/-- The persistence run resolves successfully exactly when every period's
insert succeeded. -/
theorem persist_success_iff (writeOk : Nat → Bool) (store : List ForecastRow)
    (fr : ForecastResult) :
    (persistForecastResult writeOk store fr).1 = true ↔
      ∀ i < fr.forecastPeriods.length, writeOk i = true := by
  unfold persistForecastResult
  simp only [List.all_eq_true, List.mem_map]
  constructor
  · intro h i hi
    have hp : fr.forecastPeriods[i]? = some fr.forecastPeriods[i] :=
      List.getElem?_eq_getElem hi
    have hmem : (i, fr.forecastPeriods[i]) ∈ fr.forecastPeriods.enum :=
      List.mem_enum_iff_getElem?.mpr hp
    have := h _ ⟨(i, fr.forecastPeriods[i]), hmem, rfl⟩
    by_contra hw
    rw [if_neg hw] at this
    simp [Except.toOption] at this
  · rintro h o ⟨⟨i, p⟩, hmem, rfl⟩
    have hp : fr.forecastPeriods[i]? = some p := List.mem_enum_iff_getElem?.mp hmem
    have hi : i < fr.forecastPeriods.length :=
      List.getElem?_eq_some.mp hp |>.1
    rw [if_pos (h i hi)]
    simp [Except.toOption]

/-- Every period whose insert succeeds has its row in the store afterwards,
regardless of how the other periods fared. -/
theorem persist_mem_of_writeOk (writeOk : Nat → Bool) (store : List ForecastRow)
    (fr : ForecastResult) (i : Nat) (p : ForecastPeriod)
    (hp : fr.forecastPeriods[i]? = some p) (hw : writeOk i = true) :
    mkRow fr p ∈ (persistForecastResult writeOk store fr).2 := by
  unfold persistForecastResult
  simp only
  apply List.mem_append_right
  apply List.mem_filterMap.mpr
  refine ⟨Except.ok (mkRow fr p), ?_, rfl⟩
  apply List.mem_map.mpr
  refine ⟨(i, p), List.mem_enum_iff_getElem?.mpr hp, ?_⟩
  rw [if_pos hw]

/-- Rows already in the store are retained by a persistence run. -/
theorem persist_store_retained (writeOk : Nat → Bool) (store : List ForecastRow)
    (fr : ForecastResult) (row : ForecastRow) (h : row ∈ store) :
    row ∈ (persistForecastResult writeOk store fr).2 := by
  unfold persistForecastResult
  exact List.mem_append_left _ h

/-- A series shorter than the window yields the zero fallback baseline. -/
theorem finalMovingAverage_eq_zero (values : List ℚ) (h : values.length < 7) :
    finalMovingAverage values = 0 := by
  unfold finalMovingAverage movingAverages
  rw [if_pos h]
  rfl

/-- Indexing into the generated period list. -/
theorem forecastPeriodsOf_getElem? (sqrtFn : ℚ → ℚ) (sales : List DataPoint)
    (c : ℚ) (lastDate : Date) (i : Nat) (h : i < 5) :
    (forecastPeriodsOf sqrtFn sales c lastDate)[i]? =
      some (forecastPeriod sqrtFn sales c lastDate i) := by
  unfold forecastPeriodsOf
  rw [List.getElem?_map, List.getElem?_range h]
  rfl

/-- Inversion for indexing into the generated period list. -/
theorem forecastPeriodsOf_getElem?_inv {sqrtFn : ℚ → ℚ} {sales : List DataPoint}
    {c : ℚ} {lastDate : Date} {i : Nat} {p : ForecastPeriod}
    (h : (forecastPeriodsOf sqrtFn sales c lastDate)[i]? = some p) :
    i < 5 ∧ p = forecastPeriod sqrtFn sales c lastDate i := by
  unfold forecastPeriodsOf at h
  rw [List.getElem?_map] at h
  by_cases hi : i < 5
  · rw [List.getElem?_range hi] at h
    exact ⟨hi, (Option.some.inj h).symm⟩
  · rw [List.getElem?_eq_none (by simpa [List.length_range] using Nat.le_of_not_lt hi)] at h
    exact absurd h (by simp)

/-- A window sum over drop/take equals the sum of the pointwise reads. -/
theorem take_drop_sum_eq_range (l : List ℚ) (i k : Nat) (h : i + k ≤ l.length) :
    ((l.drop i).take k).sum = ((List.range k).map (fun j => l.getD (i + j) 0)).sum := by
  have heq : (l.drop i).take k = (List.range k).map (fun j => l.getD (i + j) 0) := by
    apply List.ext_getElem?
    intro j
    rw [List.getElem?_take, List.getElem?_map]
    by_cases hj : j < k
    · rw [if_pos hj, List.getElem?_drop, List.getElem?_range hj]
      have hij : i + j < l.length := by omega
      rw [List.getElem?_eq_getElem hij]
      simp [List.getD_eq_getElem?_getD, List.getElem?_eq_getElem hij]
    · rw [if_neg hj,
        List.getElem?_eq_none (by simpa [List.length_range] using Nat.le_of_not_lt hj)]
      rfl
  rw [heq]

/-- Claim C1: rationale generation is total.  For every summary input
(movingAverage, trendSlope, historicalDataPoints, forecastHorizon,
productId) and every behaviour of the external text-generation dependency
(success, failure response - including the unconfigured-key case, which
surfaces as success = false - or a thrown error), computeRationale returns
a non-empty string; hence every emitted ForecastResult carries a non-empty
forecastRationale. -/
theorem C1_rationale_never_empty :
    (∀ (req : GeminiExplanationRequest) (outcome : GeminiOutcome),
      computeRationale req outcome ≠ "") ∧
    (∀ (sqrtFn : ℚ → ℚ) (rid pid : String) (sales : List DataPoint) (c : ℚ)
      (outcome : GeminiOutcome) (fr : ForecastResult),
      emittedForecastResult sqrtFn rid pid sales c outcome = some fr →
        fr.forecastRationale ≠ "") := by
  have hbase : ∀ req outcome, computeRationale req outcome ≠ "" := by
    intro req outcome
    cases outcome with
    | responded r =>
      show (if r.success = true ∧ r.explanation ≠ "" then r.explanation
            else generateFallbackExplanation req) ≠ ""
      by_cases h : r.success = true ∧ r.explanation ≠ ""
      · rw [if_pos h]
        exact h.2
      · rw [if_neg h]
        exact generateFallbackExplanation_ne_empty req
    | threw m => exact generateFallbackExplanation_ne_empty req
  refine ⟨hbase, ?_⟩
  intro sqrtFn rid pid sales c outcome fr hfr
  unfold emittedForecastResult at hfr
  cases hg : generateForecast sqrtFn rid pid sales c with
  | none =>
    rw [hg] at hfr
    simp at hfr
  | some fr0 =>
    rw [hg] at hfr
    simp only [Option.map_some'] at hfr
    have := Option.some.inj hfr
    subst this
    exact hbase _ _

/-- Witness for C1: a concrete summary input under a thrown dependency
error still yields a non-empty rationale. -/
theorem C1_witness :
    computeRationale ⟨110, 12 / 7, 7, 5, "prod-1"⟩ (GeminiOutcome.threw "boom") ≠ "" :=
  C1_rationale_never_empty.1 ⟨110, 12 / 7, 7, 5, "prod-1"⟩ (GeminiOutcome.threw "boom")

/-- Claim C6: on the known series of 7 facts with values
100, 110, 105, 120, 115, 108, 112 on 2023-01-01 .. 2023-01-07, the engine
computes movingAverage = 110 (the single full 7-point window),
trendSlope = (112 - 100) / 7, and the first forecast period is dated
2023-01-08 with forecastValue round2(110 + trendSlope) = 111.71. -/
theorem C6_known_series_roundtrip (sqrtFn : ℚ → ℚ) (rid pid : String) (c : ℚ) :
    (generateForecast sqrtFn rid pid exSales c).map
        (fun fr =>
          (fr.forecastSummary.movingAverage, fr.forecastSummary.trendSlope,
            (fr.forecastPeriods.head?).map (fun p => (p.date, p.forecastValue)))) =
      some (110, (112 - 100) / 7, some (⟨2023, 1, 8⟩, 11171 / 100)) := by
  rw [generateForecast_eq_some sqrtFn rid pid exSales c ⟨⟨2023, 1, 7⟩, 112⟩ rfl]
  simp only [Option.map_some']
  unfold forecastSummaryOf forecastPeriodsOf forecastValuesOf forecastPeriod
  simp only [exSales, List.map_cons, List.map_nil]
  norm_num [finalMovingAverage, movingAverages, trendSlope, round2, jsRound,
    List.range_succ, Date.addDays, Date.nextDay, daysInMonth]

/-- Counterexample for C2: on cexMinSales the code's minForecast is the
minimum of the ROUNDED period values (0), while the minimum of the raw
(unrounded) forecast values movingAverage + trendSlope * d is 1/500; the
two differ, refuting the claim that minForecast/maxForecast are extrema of
the raw values. -/
theorem C2_counterexample :
    ((generateForecast (fun _ => 0) "r" "p" cexMinSales 1).map
        (fun fr => fr.forecastSummary.minForecast)) = some 0 ∧
    (((List.range 5).map (fun i =>
        finalMovingAverage (cexMinSales.map (fun s => s.value)) +
          trendSlope (cexMinSales.map (fun s => s.value)) * ((i + 1 : Nat) : ℚ))).min?) =
      some (1 / 500) ∧
    (0 : ℚ) ≠ 1 / 500 := by
  refine ⟨?_, ?_, by norm_num⟩
  · rw [generateForecast_eq_some (fun _ => 0) "r" "p" cexMinSales 1
      ⟨⟨2023, 1, 7⟩, 7 / 1000⟩ rfl]
    simp only [Option.map_some']
    unfold forecastSummaryOf forecastValuesOf forecastPeriodsOf forecastPeriod
    norm_num [cexMinSales, finalMovingAverage, movingAverages, trendSlope,
      round2, jsRound, List.range_succ]
  · norm_num [cexMinSales, finalMovingAverage, movingAverages, trendSlope,
      List.range_succ]

/-- Claim C2 (amended): for every non-empty fact series, averageForecast is
the 2-decimal rounding of the mean of the five (rounded) period forecast
values, trend is the 2-decimal rounding of the last minus the first period
forecast value, and minForecast / maxForecast are the extrema of the
ROUNDED period forecast values (not of the raw values
movingAverage + trendSlope * d). -/
theorem C2_summary_statistics (sqrtFn : ℚ → ℚ) (rid pid : String)
    (sales : List DataPoint) (c : ℚ) (fr : ForecastResult)
    (hfr : generateForecast sqrtFn rid pid sales c = some fr) :
    fr.forecastSummary.averageForecast =
      round2 ((((List.range 5).map (fun i =>
        round2 (finalMovingAverage (sales.map (fun s => s.value)) +
          trendSlope (sales.map (fun s => s.value)) * ((i + 1 : Nat) : ℚ)))).sum) / 5) ∧
    fr.forecastSummary.trend =
      round2 (round2 (finalMovingAverage (sales.map (fun s => s.value)) +
          trendSlope (sales.map (fun s => s.value)) * 5) -
        round2 (finalMovingAverage (sales.map (fun s => s.value)) +
          trendSlope (sales.map (fun s => s.value)) * 1)) ∧
    (fr.forecastSummary.minForecast ∈ fr.forecastPeriods.map (fun p => p.forecastValue) ∧
      ∀ v ∈ fr.forecastPeriods.map (fun p => p.forecastValue),
        fr.forecastSummary.minForecast ≤ v) ∧
    (fr.forecastSummary.maxForecast ∈ fr.forecastPeriods.map (fun p => p.forecastValue) ∧
      ∀ v ∈ fr.forecastPeriods.map (fun p => p.forecastValue),
        v ≤ fr.forecastSummary.maxForecast) := by
  obtain ⟨lf, hlast2, rfl⟩ := generateForecast_inv hfr
  have hvals : forecastValuesOf sqrtFn sales c lf.date =
      (List.range 5).map (fun i =>
        round2 (finalMovingAverage (sales.map (fun s => s.value)) +
          trendSlope (sales.map (fun s => s.value)) * ((i + 1 : Nat) : ℚ))) := by
    unfold forecastValuesOf forecastPeriodsOf
    rw [List.map_map]
    rfl
  have hlen : (forecastValuesOf sqrtFn sales c lf.date).length = 5 := by
    unfold forecastValuesOf forecastPeriodsOf
    simp
  have hne : forecastValuesOf sqrtFn sales c lf.date ≠ [] := by
    intro h
    rw [h] at hlen
    simp at hlen
  refine ⟨?_, ?_, ?_, ?_⟩
  · show round2 ((forecastValuesOf sqrtFn sales c lf.date).sum /
        (forecastValuesOf sqrtFn sales c lf.date).length) = _
    rw [hlen, hvals]
    norm_num
  · show round2 (((forecastValuesOf sqrtFn sales c lf.date).getLast?).getD 0 -
        ((forecastValuesOf sqrtFn sales c lf.date).head?).getD 0) = _
    rw [hvals]
    have h5 : List.range 5 = [0, 1, 2, 3, 4] := rfl
    rw [h5]
    simp only [List.map_cons, List.map_nil, List.getLast?_cons_cons,
      List.getLast?_singleton, List.head?_cons, Option.getD_some]
    norm_num
  · cases hmin : (forecastValuesOf sqrtFn sales c lf.date).min? with
    | none =>
      exact absurd (List.min?_eq_none_iff.mp hmin) hne
    | some m =>
      obtain ⟨hmem, hbound⟩ := rat_min?_eq_some_iff.mp hmin
      show ((forecastValuesOf sqrtFn sales c lf.date).min?).getD 0 ∈
          forecastValuesOf sqrtFn sales c lf.date ∧
        ∀ v ∈ forecastValuesOf sqrtFn sales c lf.date,
          ((forecastValuesOf sqrtFn sales c lf.date).min?).getD 0 ≤ v
      rw [hmin]
      exact ⟨hmem, hbound⟩
  · cases hmax : (forecastValuesOf sqrtFn sales c lf.date).max? with
    | none =>
      exact absurd (List.max?_eq_none_iff.mp hmax) hne
    | some m =>
      obtain ⟨hmem, hbound⟩ := rat_max?_eq_some_iff.mp hmax
      show ((forecastValuesOf sqrtFn sales c lf.date).max?).getD 0 ∈
          forecastValuesOf sqrtFn sales c lf.date ∧
        ∀ v ∈ forecastValuesOf sqrtFn sales c lf.date,
          v ≤ ((forecastValuesOf sqrtFn sales c lf.date).max?).getD 0
      rw [hmax]
      exact ⟨hmem, hbound⟩

/-- Witness for C2: the amended summary facts instantiated on the concrete
7-fact example series. -/
theorem C2_witness :
    generateForecast sqrt0 "r" "p" exSales 1 = some exForecastResult ∧
    exForecastResult.forecastSummary.averageForecast =
      round2 ((((List.range 5).map (fun i =>
        round2 (finalMovingAverage (exSales.map (fun s => s.value)) +
          trendSlope (exSales.map (fun s => s.value)) * ((i + 1 : Nat) : ℚ)))).sum) / 5) := by
  have hfr : generateForecast sqrt0 "r" "p" exSales 1 = some exForecastResult :=
    generateForecast_eq_some sqrt0 "r" "p" exSales 1 ⟨⟨2023, 1, 7⟩, 112⟩ rfl
  exact ⟨hfr, (C2_summary_statistics sqrt0 "r" "p" exSales 1 exForecastResult hfr).1⟩

/-- Claim C3: for every non-empty fact series with fewer than 7 points the
engine still produces a result (no failure): movingAverage falls back to 0
and every period's forecastValue is round2(trendSlope * d) for its day
offset d = i + 1. -/
theorem C3_short_series_zero_baseline (sqrtFn : ℚ → ℚ) (rid pid : String)
    (sales : List DataPoint) (c : ℚ) (hne : sales ≠ [])
    (hshort : sales.length < 7) :
    ∃ fr, generateForecast sqrtFn rid pid sales c = some fr ∧
      fr.forecastSummary.movingAverage = 0 ∧
      ∀ i p, fr.forecastPeriods[i]? = some p →
        p.forecastValue =
          round2 (trendSlope (sales.map (fun s => s.value)) * ((i + 1 : Nat) : ℚ)) := by
  have hsome : sales.getLast?.isSome := List.getLast?_isSome.mpr hne
  obtain ⟨lastFact, hlast⟩ := Option.isSome_iff_exists.mp hsome
  have hzero : finalMovingAverage (sales.map (fun s => s.value)) = 0 :=
    finalMovingAverage_eq_zero _ (by simpa using hshort)
  refine ⟨_, generateForecast_eq_some sqrtFn rid pid sales c lastFact hlast, ?_, ?_⟩
  · show (forecastSummaryOf sqrtFn sales c lastFact.date).movingAverage = 0
    unfold forecastSummaryOf
    exact hzero
  · intro i p hp
    obtain ⟨hi, rfl⟩ := forecastPeriodsOf_getElem?_inv hp
    show round2 (finalMovingAverage (sales.map (fun s => s.value)) +
        trendSlope (sales.map (fun s => s.value)) * ((i + 1 : Nat) : ℚ)) = _
    rw [hzero, zero_add]

/-- Witness for C3: the 3-point series is non-empty, shorter than the
window, and gets the zero-baseline forecast. -/
theorem C3_witness :
    shortSales ≠ [] ∧ shortSales.length < 7 ∧
    ∃ fr, generateForecast sqrt0 "r" "p" shortSales 1 = some fr ∧
      fr.forecastSummary.movingAverage = 0 ∧
      ∀ i p, fr.forecastPeriods[i]? = some p →
        p.forecastValue =
          round2 (trendSlope (shortSales.map (fun s => s.value)) * ((i + 1 : Nat) : ℚ)) :=
  ⟨by simp [shortSales], by simp [shortSales],
   C3_short_series_zero_baseline sqrt0 "r" "p" shortSales 1 (by simp [shortSales])
     (by simp [shortSales])⟩

/-- Claim C4: for every fact series and confidenceLevel ≥ 0 (and any
square-root implementation that is nonnegative on nonnegative input, as
Math.sqrt is), every generated period brackets its forecastValue:
lower ≤ forecastValue ≤ upper, the margin being sqrt of the population
variance of all input fact values times confidenceLevel, all three numbers
rounded to 2 decimals. -/
theorem C4_confidence_interval_bounds (sqrtFn : ℚ → ℚ) (rid pid : String)
    (sales : List DataPoint) (c : ℚ)
    (hsqrt : ∀ q : ℚ, 0 ≤ q → 0 ≤ sqrtFn q) (hc : 0 ≤ c)
    (fr : ForecastResult) (hfr : generateForecast sqrtFn rid pid sales c = some fr)
    (p : ForecastPeriod) (hp : p ∈ fr.forecastPeriods) :
    p.confidenceInterval.lower ≤ p.forecastValue ∧
      p.forecastValue ≤ p.confidenceInterval.upper := by
  obtain ⟨lastFact, hlast, rfl⟩ := generateForecast_inv hfr
  have hp2 : p ∈ forecastPeriodsOf sqrtFn sales c lastFact.date := hp
  unfold forecastPeriodsOf at hp2
  obtain ⟨i, hi, rfl⟩ := List.mem_map.mp hp2
  have hmargin : 0 ≤ sqrtFn (variancePop (sales.map (fun s => s.value))) * c :=
    mul_nonneg (hsqrt _ (variancePop_nonneg _)) hc
  constructor
  · show round2 (finalMovingAverage (sales.map (fun s => s.value)) +
        trendSlope (sales.map (fun s => s.value)) * ((i + 1 : Nat) : ℚ) -
        sqrtFn (variancePop (sales.map (fun s => s.value))) * c) ≤
      round2 (finalMovingAverage (sales.map (fun s => s.value)) +
        trendSlope (sales.map (fun s => s.value)) * ((i + 1 : Nat) : ℚ))
    apply round2_mono
    linarith
  · show round2 (finalMovingAverage (sales.map (fun s => s.value)) +
        trendSlope (sales.map (fun s => s.value)) * ((i + 1 : Nat) : ℚ)) ≤
      round2 (finalMovingAverage (sales.map (fun s => s.value)) +
        trendSlope (sales.map (fun s => s.value)) * ((i + 1 : Nat) : ℚ) +
        sqrtFn (variancePop (sales.map (fun s => s.value))) * c)
    apply round2_mono
    linarith

/-- Witness for C4: sqrt2 is nonnegative on nonnegative input, the
confidenceLevel 1 is nonnegative, and on exSales every period's interval
brackets its forecast value. -/
theorem C4_witness :
    (∀ q : ℚ, 0 ≤ q → 0 ≤ sqrt2 q) ∧ (0 : ℚ) ≤ 1 ∧
    generateForecast sqrt2 "r" "p" exSales 1 = some exForecastResultS2 ∧
    ∀ p ∈ exForecastResultS2.forecastPeriods,
      p.confidenceInterval.lower ≤ p.forecastValue ∧
        p.forecastValue ≤ p.confidenceInterval.upper := by
  have hfr : generateForecast sqrt2 "r" "p" exSales 1 = some exForecastResultS2 :=
    generateForecast_eq_some sqrt2 "r" "p" exSales 1 ⟨⟨2023, 1, 7⟩, 112⟩ rfl
  refine ⟨fun q hq => by norm_num [sqrt2], by norm_num, hfr, fun p hp =>
    C4_confidence_interval_bounds sqrt2 "r" "p" exSales 1
      (fun q hq => by norm_num [sqrt2]) (by norm_num) exForecastResultS2 hfr p hp⟩

/-- Claim C5: for every ascending fact series of length ≥ 7 (and any
confidenceLevel) the engine produces exactly 5 periods, and the (i+1)-th
period is dated exactly i+1 calendar days after the last fact's date. -/
theorem C5_horizon_and_calendar_dates (sqrtFn : ℚ → ℚ) (rid pid : String)
    (sales : List DataPoint) (c : ℚ) (lastFact : DataPoint)
    (_hlen : 7 ≤ sales.length)
    (_hasc : List.Chain' (fun a b : DataPoint => a.date.before b.date) sales)
    (hlast : sales.getLast? = some lastFact)
    (fr : ForecastResult) (hfr : generateForecast sqrtFn rid pid sales c = some fr) :
    fr.forecastPeriods.length = 5 ∧
      ∀ i < 5, (fr.forecastPeriods[i]?).map (fun p => p.date) =
        some (lastFact.date.addDays (i + 1)) := by
  obtain ⟨lf, hlast2, rfl⟩ := generateForecast_inv hfr
  rw [hlast] at hlast2
  obtain rfl := Option.some.inj hlast2
  constructor
  · show (forecastPeriodsOf sqrtFn sales c lastFact.date).length = 5
    unfold forecastPeriodsOf
    simp
  · intro i hi
    show ((forecastPeriodsOf sqrtFn sales c lastFact.date)[i]?).map (fun p => p.date) = _
    rw [forecastPeriodsOf_getElem? sqrtFn sales c lastFact.date i hi]
    rfl

/-- Witness for C5: exSales has 7 strictly ascending dates; the engine
output has 5 periods dated 1..5 days after 2023-01-07. -/
theorem C5_witness :
    7 ≤ exSales.length ∧
    List.Chain' (fun a b : DataPoint => a.date.before b.date) exSales ∧
    exSales.getLast? = some ⟨⟨2023, 1, 7⟩, 112⟩ ∧
    generateForecast sqrt0 "r" "p" exSales 1 = some exForecastResult ∧
    exForecastResult.forecastPeriods.length = 5 ∧
    ∀ i < 5, (exForecastResult.forecastPeriods[i]?).map (fun p => p.date) =
      some ((⟨2023, 1, 7⟩ : Date).addDays (i + 1)) := by
  have hfr : generateForecast sqrt0 "r" "p" exSales 1 = some exForecastResult :=
    generateForecast_eq_some sqrt0 "r" "p" exSales 1 ⟨⟨2023, 1, 7⟩, 112⟩ rfl
  have hchain : List.Chain' (fun a b : DataPoint => a.date.before b.date) exSales := by
    simp only [exSales, List.chain'_cons, List.chain'_singleton, and_true]
    decide
  have h := C5_horizon_and_calendar_dates sqrt0 "r" "p" exSales 1
    ⟨⟨2023, 1, 7⟩, 112⟩ (by simp [exSales]) hchain rfl exForecastResult hfr
  exact ⟨by simp [exSales], hchain, rfl, hfr, h.1, h.2⟩

/-- Claim C7: persistence is per-period with no rollback.  The run is
reported successful exactly when every period's write succeeded; a period
whose write succeeded has its row in the Result Store afterwards no matter
how the other periods fared (so a failed run keeps the successfully
written periods); rows already in the store are never removed. -/
theorem C7_partial_persistence (writeOk : Nat → Bool) (store : List ForecastRow)
    (fr : ForecastResult) :
    ((persistForecastResult writeOk store fr).1 = true ↔
      ∀ i < fr.forecastPeriods.length, writeOk i = true) ∧
    (∀ i p, fr.forecastPeriods[i]? = some p → writeOk i = true →
      mkRow fr p ∈ (persistForecastResult writeOk store fr).2) ∧
    (∀ row ∈ store, row ∈ (persistForecastResult writeOk store fr).2) :=
  ⟨persist_success_iff writeOk store fr,
   fun i p hp hw => persist_mem_of_writeOk writeOk store fr i p hp hw,
   fun row h => persist_store_retained writeOk store fr row h⟩

/-- The Result Store behaviour used by the persistence witnesses: the write
for period 0 fails and every other write succeeds. -/
def wWriteOk : Nat → Bool := fun i => decide (i ≠ 0)

/-- Witness for C7: with period 0 failing and period 1 succeeding, the run
reports failure while period 1's row is in the store. -/
theorem C7_witness :
    (persistForecastResult wWriteOk [] wForecastResult).1 = false ∧
    mkRow wForecastResult wPeriod1 ∈ (persistForecastResult wWriteOk [] wForecastResult).2 := by
  have h := C7_partial_persistence wWriteOk [] wForecastResult
  constructor
  · by_contra hb
    simp only [Bool.not_eq_false] at hb
    have h0 := (h.1).mp hb 0 (by simp [wForecastResult])
    simp [wWriteOk] at h0
  · exact h.2.1 1 wPeriod1 rfl rfl

/-- Counterexample for C8: the claim says 2-decimal rounding is
round-half-away-from-zero, so a raw value that is an exact negative half
of a hundredth would round to the more negative hundredth.  The code's
rounding gives round2(-1/200) = 0 (not -1/100); on cexHalfSales the raw
first forecast value is exactly -1/200 and the emitted forecastValue is 0. -/
theorem C8_counterexample :
    round2 (-1 / 200) = 0 ∧
    finalMovingAverage (cexHalfSales.map (fun s => s.value)) +
        trendSlope (cexHalfSales.map (fun s => s.value)) * ((0 + 1 : Nat) : ℚ) = -1 / 200 ∧
    ((generateForecast sqrt0 "r" "p" cexHalfSales 0).map
        (fun fr => (fr.forecastPeriods.head?).map (fun p => p.forecastValue))) =
      some (some 0) ∧
    (0 : ℚ) ≠ -1 / 100 := by
  refine ⟨by norm_num [round2, jsRound], ?_, ?_, by norm_num⟩
  · norm_num [cexHalfSales, finalMovingAverage, movingAverages, trendSlope]
  · rw [generateForecast_eq_some sqrt0 "r" "p" cexHalfSales 0
      ⟨⟨2023, 1, 2⟩, -1 / 100⟩ rfl]
    simp only [Option.map_some']
    unfold forecastPeriodsOf forecastPeriod
    norm_num [cexHalfSales, finalMovingAverage, movingAverages, trendSlope,
      round2, jsRound, List.range_succ]

/-- Claim C8 (amended): the 2-decimal rounding round2(x) = round(x*100)/100
is rounding to the nearest hundredth with ties toward +infinity (JavaScript
Math.round), NOT half-away-from-zero: the result is the unique multiple of
1/100 in (x - 1/200, x + 1/200], and a negative x whose scaled value is the
exact half -k - 1/2 rounds to the LESS negative hundredth -k/100. -/
theorem C8_rounding_half_up :
    (∀ x : ℚ, (∃ n : Int, round2 x = (n : ℚ) / 100) ∧
      x - 1 / 200 < round2 x ∧ round2 x ≤ x + 1 / 200) ∧
    (∀ k : Nat, round2 (-(2 * (k : ℚ) + 1) / 200) = -(k : ℚ) / 100) := by
  constructor
  · intro x
    have hb := jsRound_bounds (x * 100)
    refine ⟨⟨jsRound (x * 100), rfl⟩, ?_, ?_⟩
    · show x - 1 / 200 < (jsRound (x * 100) : ℚ) / 100
      have := hb.1
      linarith
    · show (jsRound (x * 100) : ℚ) / 100 ≤ x + 1 / 200
      have := hb.2
      linarith
  · intro k
    unfold round2 jsRound
    have h1 : -(2 * (k : ℚ) + 1) / 200 * 100 + 1 / 2 = ((-(k : ℤ) : ℤ) : ℚ) := by
      push_cast
      ring
    rw [h1, Int.floor_intCast]
    push_cast
    ring

/-- Claim C9: the trailing moving-average sequence with window 7 is empty
for series shorter than 7, has length n - 7 + 1 otherwise, and its i-th
entry is the arithmetic mean of the 7 consecutive values starting at
position i. -/
theorem C9_windowed_averages (values : List ℚ) :
    (values.length < 7 → movingAverages values = []) ∧
    (7 ≤ values.length → (movingAverages values).length = values.length - 7 + 1) ∧
    (∀ i, i + 7 ≤ values.length →
      (movingAverages values)[i]? =
        some ((((List.range 7).map (fun j => values.getD (i + j) 0)).sum) / 7)) := by
  refine ⟨?_, ?_, ?_⟩
  · intro h
    unfold movingAverages
    rw [if_pos h]
  · intro h
    unfold movingAverages
    rw [if_neg (by omega)]
    simp only [List.length_map, List.length_range]
    omega
  · intro i hi
    unfold movingAverages
    rw [if_neg (by omega)]
    rw [List.getElem?_map, List.getElem?_range (by omega : i < values.length - 6)]
    simp only [Option.map_some']
    rw [take_drop_sum_eq_range values i 7 hi]

/-- Witness for C9: on an 8-value series the sequence has length 2 and its
second entry is the mean of values 2..8. -/
theorem C9_witness :
    7 ≤ ([1, 2, 3, 4, 5, 6, 7, 8] : List ℚ).length ∧
    (movingAverages [1, 2, 3, 4, 5, 6, 7, 8]).length =
      ([1, 2, 3, 4, 5, 6, 7, 8] : List ℚ).length - 7 + 1 ∧
    (movingAverages [1, 2, 3, 4, 5, 6, 7, 8])[1]? =
      some ((((List.range 7).map
        (fun j => ([1, 2, 3, 4, 5, 6, 7, 8] : List ℚ).getD (1 + j) 0)).sum) / 7) :=
  ⟨by norm_num,
   (C9_windowed_averages [1, 2, 3, 4, 5, 6, 7, 8]).2.1 (by norm_num),
   (C9_windowed_averages [1, 2, 3, 4, 5, 6, 7, 8]).2.2 1 (by norm_num)⟩

/-- Claim C10: the quantity persisted for a period is
Math.round(forecastValue) - the nearest integer, ties toward +infinity -
not the 2-decimal forecastValue itself: whenever forecastValue is not an
integer, the stored forecast_quantity differs from it. -/
theorem C10_persisted_quantity_rounded (writeOk : Nat → Bool)
    (store : List ForecastRow) (fr : ForecastResult) (i : Nat) (p : ForecastPeriod)
    (hp : fr.forecastPeriods[i]? = some p) (hw : writeOk i = true) :
    mkRow fr p ∈ (persistForecastResult writeOk store fr).2 ∧
    (mkRow fr p).forecast_quantity = jsRound p.forecastValue ∧
    (p.forecastValue - 1 / 2 < ((mkRow fr p).forecast_quantity : ℚ) ∧
      ((mkRow fr p).forecast_quantity : ℚ) ≤ p.forecastValue + 1 / 2) ∧
    ((¬ ∃ n : Int, p.forecastValue = (n : ℚ)) →
      ((mkRow fr p).forecast_quantity : ℚ) ≠ p.forecastValue) := by
  refine ⟨persist_mem_of_writeOk writeOk store fr i p hp hw, rfl, ?_, ?_⟩
  · exact jsRound_bounds p.forecastValue
  · intro hfrac heq
    exact hfrac ⟨jsRound p.forecastValue, heq.symm⟩

/-- Witness for C10: period 1 of the concrete result has forecastValue
111.71, which is not an integer, and the persisted quantity 112 = its
Math.round differs from it. -/
theorem C10_witness :
    wForecastResult.forecastPeriods[1]? = some wPeriod1 ∧ wWriteOk 1 = true ∧
    mkRow wForecastResult wPeriod1 ∈
      (persistForecastResult wWriteOk [] wForecastResult).2 ∧
    (mkRow wForecastResult wPeriod1).forecast_quantity = jsRound wPeriod1.forecastValue ∧
    ((mkRow wForecastResult wPeriod1).forecast_quantity : ℚ) ≠ wPeriod1.forecastValue := by
  have h := C10_persisted_quantity_rounded wWriteOk [] wForecastResult 1 wPeriod1 rfl rfl
  refine ⟨rfl, rfl, h.1, h.2.1, h.2.2.2 ?_⟩
  rintro ⟨n, hn⟩
  have hv : wPeriod1.forecastValue = (11171 : ℚ) / 100 := rfl
  rw [hv] at hn
  have h100 : (11171 : ℚ) = (n : ℚ) * 100 := by
    field_simp at hn
    linarith
  have hz : (11171 : ℤ) = n * 100 := by exact_mod_cast h100
  omega
